import Mathlib

/-!
Verification of the accounting core of the AI-chef bot repository
(balance store, payment ledger, rate limiter, usage orchestrator).

The definitions below are a shallow embedding of the Python source:

* `src/database.py` : the users table and payments table together with the
  operations `get_user`, `get_balance`, `deduct_token`, `save_payment`,
  `save_recipe` and `update_payment_status`.  The SQLite tables are modelled
  as maps from the primary key to an optional row; each SQL statement is
  translated into the corresponding pure update of that map.  The `amount`
  column is declared `REAL` in the schema; every amount handled by the
  program is an exact integral number of currency units, so it is modelled
  as `Int` (the additions performed on it are exact in either model).
  Timestamp columns (`created_at`, `last_seen`) are not modelled: no program
  logic reads them.
* `src/bot.py` : the in-memory rate-limit map (`check_rate_limit`,
  `update_rate_limit`) and the request orchestrator
  `_generate_recipe_for_user`.  Wall-clock time is modelled at whole-second
  granularity as `Int`; the source computes the elapsed time as a float and
  returns `int(wait) + 1`, and for an integral positive `wait` the
  truncation `int(wait)` is the identity, so the embedding returns
  `wait + 1` in that branch.
-/

namespace AiChef

/-- A row of the `users` table of `src/database.py`: username, full name,
token balance (`tokens_balance INTEGER`), total money spent
(`total_spent REAL`, integral in every program path, modelled as `Int`) and
total recipes generated (`total_recipes INTEGER`). -/
structure User where
  username : String
  full_name : String
  tokens_balance : Int
  total_spent : Int
  total_recipes : Int
  deriving Repr, DecidableEq

/-- A row of the `payments` table of `src/database.py`: owning user,
package key, amount in currency units, number of recipe credits granted on
success, and status string (`pending`, `succeeded` or `canceled`). -/
structure Payment where
  user_id : Nat
  package_key : String
  amount : Int
  recipes_count : Int
  status : String
  deriving Repr, DecidableEq

/-- The SQLite database state: the `users` table keyed by `user_id`, the
`payments` table keyed by the provider payment id, and the `recipes`
history table as an append-only list of (user id, prompt, response). -/
structure DB where
  users : Nat → Option User
  payments : String → Option Payment
  recipes : List (Nat × String × String)

/-- The empty database produced by `init_db` (all tables empty). -/
def emptyDB : DB :=
  { users := fun _ => none, payments := fun _ => none, recipes := [] }

/-- Modelled from the spec: `config.py` is not under `src/`; the spec fixes
the default free-trial grant `FREE_RECIPES_ON_START` at 3 in its end-to-end
example. -/
def FREE_RECIPES_ON_START : Int := 3

/-- Modelled from the spec: `config.py` is not under `src/`; the spec fixes
the rate-limit cooldown `RATE_LIMIT_SECONDS` at 30 seconds. -/
def RATE_LIMIT_SECONDS : Int := 30

/-- `get_user` of `src/database.py`: a pure `SELECT` on the users table
returning the row when present.  It performs no write, which the embedding
reflects by not returning a new database state. -/
def get_user (db : DB) (user_id : Nat) : Option User :=
  db.users user_id

/-- `get_balance` of `src/database.py`: returns
`user["tokens_balance"] if user else 0`.  Like `get_user` it is a pure
read and creates no row. -/
def get_balance (db : DB) (user_id : Nat) : Int :=
  match get_user db user_id with
  | some user => user.tokens_balance
  | none => 0

/-- `deduct_token` of `src/database.py`: the single `UPDATE` statement
`SET tokens_balance = tokens_balance - 1, total_recipes = total_recipes + 1
WHERE user_id = ? AND tokens_balance > 0`, returning `rowcount > 0`.  The
row is updated exactly when it exists and has a positive balance, and the
returned boolean says whether that happened. -/
def deduct_token (db : DB) (user_id : Nat) : DB × Bool :=
  match db.users user_id with
  | some u =>
      if 0 < u.tokens_balance then
        ({ db with
            users := fun id =>
              if id = user_id then
                some { u with
                        tokens_balance := u.tokens_balance - 1,
                        total_recipes := u.total_recipes + 1 }
              else db.users id },
         true)
      else (db, false)
  | none => (db, false)

/-- `get_or_create_user` of `src/database.py`: when the row exists, the
source refreshes `last_seen`, `username` and `full_name` and returns the
row fetched before that update; otherwise it inserts a new row whose
`tokens_balance` is `FREE_RECIPES_ON_START` (the remaining columns take
their schema defaults 0) and returns the freshly inserted row. -/
def get_or_create_user (db : DB) (user_id : Nat)
    (username full_name : String) : DB × User :=
  match db.users user_id with
  | some user =>
      ({ db with
          users := fun id =>
            if id = user_id then
              some { user with username := username, full_name := full_name }
            else db.users id },
       user)
  | none =>
      let newUser : User :=
        { username := username, full_name := full_name,
          tokens_balance := FREE_RECIPES_ON_START,
          total_spent := 0, total_recipes := 0 }
      ({ db with
          users := fun id =>
            if id = user_id then some newUser else db.users id },
       newUser)

/-- `save_recipe` of `src/database.py`: `INSERT INTO recipes` appends one
history row. -/
def save_recipe (db : DB) (user_id : Nat) (prompt response : String) : DB :=
  { db with recipes := db.recipes ++ [(user_id, prompt, response)] }

/-- `save_payment` of `src/database.py`: `INSERT OR REPLACE INTO payments`
with status literal `'pending'` — any existing row under the same
`payment_id` is replaced unconditionally. -/
def save_payment (db : DB) (payment_id : String) (user_id : Nat)
    (package_key : String) (amount recipes_count : Int) : DB :=
  { db with
      payments := fun pid =>
        if pid = payment_id then
          some { user_id := user_id, package_key := package_key,
                 amount := amount, recipes_count := recipes_count,
                 status := "pending" }
        else db.payments pid }

/-- `update_payment_status` of `src/database.py`: reads the payment row; if
absent it logs a not-found warning and returns with no change (the returned
boolean is `false` exactly in that logged branch).  Otherwise, when the new
status is `succeeded` and the stored status is `pending`, it credits the
owning user with `recipes_count` balance units and `amount` spend (an
`UPDATE ... WHERE user_id = ?` that touches nothing when the user row is
absent), and in every found case it finally overwrites the payment status
with the new status. -/
def update_payment_status (db : DB) (payment_id : String) (status : String) :
    DB × Bool :=
  match db.payments payment_id with
  | none => (db, false)
  | some p =>
      let db1 : DB :=
        if status = "succeeded" ∧ p.status = "pending" then
          { db with
              users := fun id =>
                if id = p.user_id then
                  (db.users id).map fun u =>
                    { u with
                        tokens_balance := u.tokens_balance + p.recipes_count,
                        total_spent := u.total_spent + p.amount }
                else db.users id }
        else db
      ({ db1 with
          payments := fun pid =>
            if pid = payment_id then some { p with status := status }
            else db1.payments pid },
       true)

/-- `check_rate_limit` of `src/bot.py`: with no recorded request the answer
is 0; otherwise `wait = RATE_LIMIT_SECONDS - elapsed`, and the function
returns `int(wait) + 1` when `wait > 0` (identity truncation at the whole-
second granularity of this model) and 0 otherwise. -/
def check_rate_limit (last_request_time : Nat → Option Int)
    (user_id : Nat) (now : Int) : Int :=
  match last_request_time user_id with
  | some t =>
      let elapsed := now - t
      let wait := RATE_LIMIT_SECONDS - elapsed
      if 0 < wait then wait + 1 else 0
  | none => 0

/-- `update_rate_limit` of `src/bot.py`: stamps `now` as the last request
time of the user. -/
def update_rate_limit (last_request_time : Nat → Option Int)
    (user_id : Nat) (now : Int) : Nat → Option Int :=
  fun id => if id = user_id then some now else last_request_time id

/-- Outcome of the external generation backend `ai.generate_recipe` for one
request: either the generated text, or the message of the exception the
call raised.  The orchestrator receives it as an oracle argument since the
backend is an opaque external collaborator. -/
inductive GenResult where
  | ok (recipe : String)
  | failure (message : String)
  deriving Repr, DecidableEq

/-- The terminal state of one request through `_generate_recipe_for_user`
of `src/bot.py`, naming the user-visible message sent in each branch. -/
inductive RecipeOutcome where
  | tooLong
  | rateLimited (wait : Int)
  | insufficientBalance
  | generationFailed
  | tokensRanOut
  | fulfilled (newBalance : Int)
  deriving Repr, DecidableEq

/-- The mutable state `_generate_recipe_for_user` touches: the database and
the in-memory `last_request_time` map of `src/bot.py`. -/
structure BotState where
  db : DB
  last_request_time : Nat → Option Int

/-- `_generate_recipe_for_user` of `src/bot.py`, restricted to its effect
on the database and the rate-limit map.  In source order: reject when the
input exceeds `MAX_PROMPT_LENGTH` (a configured constant passed here as
`max_prompt_length`); reject when `check_rate_limit` demands a wait; reject
when `get_balance` is non-positive; otherwise stamp the rate limit, invoke
the generation backend, and on success debit one token (rejecting when the
balance was drained meanwhile), record the recipe and report the new
balance.  An exception from the backend is caught after the rate-limit
stamp and before any debit.  The third component of the result records
whether the generation backend was invoked for this request. -/
def generate_recipe_for_user (max_prompt_length : Nat) (st : BotState)
    (user_id : Nat) (user_input : String) (now : Int) (gen : GenResult) :
    BotState × RecipeOutcome × Bool :=
  if user_input.length > max_prompt_length then
    (st, .tooLong, false)
  else
    let wait_seconds := check_rate_limit st.last_request_time user_id now
    if 0 < wait_seconds then
      (st, .rateLimited wait_seconds, false)
    else
      let balance := get_balance st.db user_id
      if balance ≤ 0 then
        (st, .insufficientBalance, false)
      else
        let lrt := update_rate_limit st.last_request_time user_id now
        match gen with
        | .failure _ =>
            ({ db := st.db, last_request_time := lrt },
             .generationFailed, true)
        | .ok recipe =>
            let res := deduct_token st.db user_id
            if res.2 then
              let db2 := save_recipe res.1 user_id user_input recipe
              let new_balance := get_balance db2 user_id
              ({ db := db2, last_request_time := lrt },
               .fulfilled new_balance, true)
            else
              ({ db := res.1, last_request_time := lrt },
               .tokensRanOut, true)

/-- A concrete database used to instantiate the theorems below: one user
with balance 3 and no activity yet, and one pending payment of 199
currency units granting 10 recipe credits. -/
def sampleDB : DB :=
  { users := fun id =>
      if id = 1 then some ⟨"alice", "Alice A", 3, 0, 0⟩ else none,
    payments := fun pid =>
      if pid = "p1" then some ⟨1, "large", 199, 10, "pending"⟩ else none,
    recipes := [] }

/-- C1: settling a pending payment with `succeeded` twice credits the
account exactly once — the first call adds `recipes_count` to the balance
and `amount` to `total_spent`, and the second call leaves the user row
unchanged. -/
theorem C1_settle_twice_credits_once (db : DB) (pid pkg : String)
    (uid : Nat) (a r : Int) (u : User)
    (hp : db.payments pid = some ⟨uid, pkg, a, r, "pending"⟩)
    (hu : db.users uid = some u) :
    (((update_payment_status db pid "succeeded").1.users uid).map
        User.tokens_balance = some (u.tokens_balance + r)) ∧
    (((update_payment_status db pid "succeeded").1.users uid).map
        User.total_spent = some (u.total_spent + a)) ∧
    ((update_payment_status
        (update_payment_status db pid "succeeded").1 pid "succeeded").1.users
        uid
      = (update_payment_status db pid "succeeded").1.users uid) := by
  simp [update_payment_status, hp, hu]

/-- C1 witness: on `sampleDB`, settling payment `p1` twice yields balance
3 + 10 and spend 0 + 199 after the first call, unchanged by the second. -/
theorem C1_settle_twice_credits_once_witness :
    (((update_payment_status sampleDB "p1" "succeeded").1.users 1).map
        User.tokens_balance = some (3 + 10)) ∧
    (((update_payment_status sampleDB "p1" "succeeded").1.users 1).map
        User.total_spent = some (0 + 199)) ∧
    ((update_payment_status
        (update_payment_status sampleDB "p1" "succeeded").1 "p1"
        "succeeded").1.users 1
      = (update_payment_status sampleDB "p1" "succeeded").1.users 1) :=
  C1_settle_twice_credits_once sampleDB "p1" "large" 1 199 10
    ⟨"alice", "Alice A", 3, 0, 0⟩ rfl rfl

/-- C4: settling with `succeeded` after a prior `canceled` settlement does
not credit the account — the whole users table is unchanged by the second
call (and by the first, which never credits on `canceled`) — although the
payment status is overwritten to `succeeded`. -/
theorem C4_canceled_then_succeeded_no_credit (db : DB) (pid : String)
    (p : Payment) (hp : db.payments pid = some p) :
    ((update_payment_status
        (update_payment_status db pid "canceled").1 pid "succeeded").1.users
      = (update_payment_status db pid "canceled").1.users) ∧
    ((update_payment_status db pid "canceled").1.users = db.users) ∧
    (((update_payment_status
        (update_payment_status db pid "canceled").1 pid
        "succeeded").1.payments pid).map Payment.status = some "succeeded") := by
  simp [update_payment_status, hp]

/-- C4 witness: on `sampleDB`, cancel then succeed for payment `p1`. -/
theorem C4_canceled_then_succeeded_no_credit_witness :
    ((update_payment_status
        (update_payment_status sampleDB "p1" "canceled").1 "p1"
        "succeeded").1.users
      = (update_payment_status sampleDB "p1" "canceled").1.users) ∧
    ((update_payment_status sampleDB "p1" "canceled").1.users
      = sampleDB.users) ∧
    (((update_payment_status
        (update_payment_status sampleDB "p1" "canceled").1 "p1"
        "succeeded").1.payments "p1").map Payment.status = some "succeeded") :=
  C4_canceled_then_succeeded_no_credit sampleDB "p1"
    ⟨1, "large", 199, 10, "pending"⟩ rfl

/-- C8: settling a payment id with no stored record changes nothing at all
— the database is returned as it was — and the not-found condition (the
logged warning branch of the source) is reported as the `false` result. -/
theorem C8_settle_unknown_payment_noop (db : DB) (pid status : String)
    (h : db.payments pid = none) :
    update_payment_status db pid status = (db, false) := by
  simp [update_payment_status, h]

/-- C8 witness: `sampleDB` holds no payment `p2`, and settling it returns
the database unchanged with the not-found signal. -/
theorem C8_settle_unknown_payment_noop_witness :
    update_payment_status sampleDB "p2" "succeeded" = (sampleDB, false) :=
  C8_settle_unknown_payment_noop sampleDB "p2" "succeeded" rfl

/-- C10: `save_payment` unconditionally replaces an existing record and
resets its status to `pending` even after it was settled as `succeeded`, so
the sequence settle-succeeded, save_payment, settle-succeeded credits the
same account twice for the same payment id. -/
theorem C10_save_payment_reset_allows_double_credit (db : DB)
    (pid pkg : String) (uid : Nat) (a r : Int) (u : User)
    (hp : db.payments pid = some ⟨uid, pkg, a, r, "pending"⟩)
    (hu : db.users uid = some u) :
    (((update_payment_status db pid "succeeded").1.payments pid).map
        Payment.status = some "succeeded") ∧
    ((save_payment (update_payment_status db pid "succeeded").1 pid uid pkg
        a r).payments pid = some ⟨uid, pkg, a, r, "pending"⟩) ∧
    (((update_payment_status
        (save_payment (update_payment_status db pid "succeeded").1 pid uid
          pkg a r) pid "succeeded").1.users uid).map User.tokens_balance
      = some (u.tokens_balance + r + r)) ∧
    (((update_payment_status
        (save_payment (update_payment_status db pid "succeeded").1 pid uid
          pkg a r) pid "succeeded").1.users uid).map User.total_spent
      = some (u.total_spent + a + a)) := by
  simp [update_payment_status, save_payment, hp, hu]

/-- C10 witness: on `sampleDB`, the settle, re-create, settle sequence on
payment `p1` leaves user 1 with balance 3 + 10 + 10 and spend
0 + 199 + 199. -/
theorem C10_save_payment_reset_allows_double_credit_witness :
    (((update_payment_status sampleDB "p1" "succeeded").1.payments "p1").map
        Payment.status = some "succeeded") ∧
    ((save_payment (update_payment_status sampleDB "p1" "succeeded").1 "p1"
        1 "large" 199 10).payments "p1"
      = some ⟨1, "large", 199, 10, "pending"⟩) ∧
    (((update_payment_status
        (save_payment (update_payment_status sampleDB "p1" "succeeded").1
          "p1" 1 "large" 199 10) "p1" "succeeded").1.users 1).map
        User.tokens_balance = some (3 + 10 + 10)) ∧
    (((update_payment_status
        (save_payment (update_payment_status sampleDB "p1" "succeeded").1
          "p1" 1 "large" 199 10) "p1" "succeeded").1.users 1).map
        User.total_spent = some (0 + 199 + 199)) :=
  C10_save_payment_reset_allows_double_credit sampleDB "p1" "large" 1 199 10
    ⟨"alice", "Alice A", 3, 0, 0⟩ rfl rfl

/-- C3 counterexample: for the never-seen account 42 in the empty database,
`get_balance` returns 0, which is not the configured default starting
balance `FREE_RECIPES_ON_START = 3`; so the claim that the default is
returned for unseen accounts is false as stated. -/
theorem C3_counterexample_unseen_balance_not_default :
    get_user emptyDB 42 = none ∧
    get_balance emptyDB 42 ≠ FREE_RECIPES_ON_START := by
  decide

/-- C3 amended: for a never-seen account `get_balance` returns 0 (the
`else 0` branch of the source), not the configured default starting
balance; the read is pure — `get_user`/`get_balance` only run `SELECT`
statements, which the embedding reflects by giving them no state output,
so no record is created. -/
theorem C3_unseen_balance_is_zero (db : DB) (uid : Nat)
    (h : db.users uid = none) :
    get_balance db uid = 0 ∧ get_user db uid = none := by
  simp [get_balance, get_user, h]

/-- C3 witness: the empty database and account 7. -/
theorem C3_unseen_balance_is_zero_witness :
    get_balance emptyDB 7 = 0 ∧ get_user emptyDB 7 = none :=
  C3_unseen_balance_is_zero emptyDB 7 rfl

/-- C9: the creation path inserts a first-seen account with balance equal
to the configured default grant `FREE_RECIPES_ON_START` and zero counters,
and a repeated call for an existing account leaves its balance, usage
counter and spend accumulator unchanged. -/
theorem C9_create_grants_default_and_repeat_preserves (db : DB) (uid : Nat)
    (un fn un2 fn2 : String) :
    (db.users uid = none →
      (get_or_create_user db uid un fn).1.users uid
        = some ⟨un, fn, FREE_RECIPES_ON_START, 0, 0⟩) ∧
    (∀ u : User, db.users uid = some u →
      (((get_or_create_user db uid un2 fn2).1.users uid).map
          User.tokens_balance = some u.tokens_balance) ∧
      (((get_or_create_user db uid un2 fn2).1.users uid).map
          User.total_recipes = some u.total_recipes) ∧
      (((get_or_create_user db uid un2 fn2).1.users uid).map
          User.total_spent = some u.total_spent)) := by
  constructor
  · intro h
    simp [get_or_create_user, h]
  · intro u h
    simp [get_or_create_user, h]

/-- C9 witness: creating account 1 in the empty database grants balance 3,
and repeating the call with fresh profile strings preserves balance and
counters. -/
theorem C9_create_grants_default_and_repeat_preserves_witness :
    ((get_or_create_user emptyDB 1 "alice" "Alice A").1.users 1
      = some ⟨"alice", "Alice A", 3, 0, 0⟩) ∧
    ((((get_or_create_user (get_or_create_user emptyDB 1 "alice"
          "Alice A").1 1 "bob" "B").1.users 1).map User.tokens_balance
      = some 3) ∧
     (((get_or_create_user (get_or_create_user emptyDB 1 "alice"
          "Alice A").1 1 "bob" "B").1.users 1).map User.total_recipes
      = some 0) ∧
     (((get_or_create_user (get_or_create_user emptyDB 1 "alice"
          "Alice A").1 1 "bob" "B").1.users 1).map User.total_spent
      = some 0)) :=
  ⟨(C9_create_grants_default_and_repeat_preserves emptyDB 1 "alice"
      "Alice A" "x" "y").1 rfl,
   (C9_create_grants_default_and_repeat_preserves
      (get_or_create_user emptyDB 1 "alice" "Alice A").1 1 "x" "y" "bob"
      "B").2 ⟨"alice", "Alice A", 3, 0, 0⟩ rfl⟩

/-- C7: with the 30 second cooldown, a request recorded at time 0 makes a
check at time 10 return a wait of 21 seconds and a check at time 31 return
0, and a check for an account with no recorded request returns 0. -/
theorem C7_rate_limiter_values (uid : Nat) :
    check_rate_limit (update_rate_limit (fun _ => none) uid 0) uid 10
      = 21 ∧
    check_rate_limit (update_rate_limit (fun _ => none) uid 0) uid 31
      = 0 ∧
    check_rate_limit (fun _ => none) uid 5 = 0 := by
  simp [check_rate_limit, update_rate_limit, RATE_LIMIT_SECONDS]

/-- `k` successive calls of `deduct_token` for one user, returning the
final database and the number of calls that returned `true`. -/
def deduct_token_iter (db : DB) (user_id : Nat) : Nat → DB × Nat
  | 0 => (db, 0)
  | k + 1 =>
      let res := deduct_token db user_id
      let rest := deduct_token_iter res.1 user_id k
      (rest.1, (if res.2 then 1 else 0) + rest.2)

/-- Invariant of iterated deduction: starting from a non-negative balance,
`k` attempts succeed exactly `min k balance` times, and the row ends with
the balance reduced and the usage counter raised by that number. -/
theorem deduct_token_iter_spec (user_id : Nat) (k : Nat) :
    ∀ (db : DB) (u : User), db.users user_id = some u →
      0 ≤ u.tokens_balance →
      (deduct_token_iter db user_id k).2
        = min k u.tokens_balance.toNat ∧
      (((deduct_token_iter db user_id k).1.users user_id).map
          User.tokens_balance
        = some (u.tokens_balance - min k u.tokens_balance.toNat)) ∧
      (((deduct_token_iter db user_id k).1.users user_id).map
          User.total_recipes
        = some (u.total_recipes + min k u.tokens_balance.toNat)) := by
  induction k with
  | zero =>
      intro db u hu hb
      simp [deduct_token_iter, hu]
  | succ k ih =>
      intro db u hu hb
      by_cases hpos : 0 < u.tokens_balance
      · have hbool : (deduct_token db user_id).2 = true := by
          simp [deduct_token, hu, hpos]
        have hu' : (deduct_token db user_id).1.users user_id
            = some { u with
                      tokens_balance := u.tokens_balance - 1,
                      total_recipes := u.total_recipes + 1 } := by
          simp [deduct_token, hu, hpos]
        obtain ⟨h1, h2, h3⟩ :=
          ih (deduct_token db user_id).1 _ hu' (by simp; omega)
        simp only at h1 h2 h3
        refine ⟨?_, ?_, ?_⟩
        · simp only [deduct_token_iter, hbool, h1, if_true]
          omega
        · simp only [deduct_token_iter]
          rw [h2]
          simp only [Option.some.injEq]
          omega
        · simp only [deduct_token_iter]
          rw [h3]
          simp only [Option.some.injEq]
          push_cast
          omega
      · have hres : deduct_token db user_id = (db, false) := by
          simp [deduct_token, hu, hpos]
        obtain ⟨h1, h2, h3⟩ := ih db u hu hb
        have hzero : u.tokens_balance = 0 := by omega
        refine ⟨?_, ?_, ?_⟩
        · simp only [deduct_token_iter, hres, h1]
          simp [hzero]
        · simp only [deduct_token_iter, hres]
          rw [h2]
          simp [hzero]
        · simp only [deduct_token_iter, hres]
          rw [h3]
          simp [hzero]

/-- C2: for an account with positive balance `b`, `k` deduction attempts
succeed exactly `min k b` times: when `k ≤ b` all `k` succeed and the final
balance is `b - k`; when `b < k` exactly `b` succeed and the final balance
is 0; the usage counter grows by exactly the number of successes; each
single successful call moves the balance down by 1 and the counter up by 1;
and a call never succeeds when the balance is non-positive (or the account
is absent). -/
theorem C2_deduct_token_counts (db : DB) (user_id : Nat) (u : User)
    (k : Nat) (hu : db.users user_id = some u)
    (hb : 0 < u.tokens_balance) :
    ((k : Int) ≤ u.tokens_balance →
      (deduct_token_iter db user_id k).2 = k ∧
      (((deduct_token_iter db user_id k).1.users user_id).map
          User.tokens_balance = some (u.tokens_balance - k))) ∧
    (u.tokens_balance < (k : Int) →
      ((deduct_token_iter db user_id k).2 : Int) = u.tokens_balance ∧
      (((deduct_token_iter db user_id k).1.users user_id).map
          User.tokens_balance = some 0)) ∧
    (((deduct_token_iter db user_id k).1.users user_id).map
        User.total_recipes
      = some (u.total_recipes + min k u.tokens_balance.toNat)) ∧
    (∀ (db2 : DB) (uid2 : Nat), get_balance db2 uid2 ≤ 0 →
      (deduct_token db2 uid2).2 = false) ∧
    (∀ (db2 : DB) (uid2 : Nat) (u2 : User), db2.users uid2 = some u2 →
      0 < u2.tokens_balance →
      (deduct_token db2 uid2).2 = true ∧
      (((deduct_token db2 uid2).1.users uid2).map User.tokens_balance
        = some (u2.tokens_balance - 1)) ∧
      (((deduct_token db2 uid2).1.users uid2).map User.total_recipes
        = some (u2.total_recipes + 1))) := by
  obtain ⟨h1, h2, h3⟩ :=
    deduct_token_iter_spec user_id k db u hu (le_of_lt hb)
  refine ⟨?_, ?_, h3, ?_, ?_⟩
  · intro hk
    have hmin : min k u.tokens_balance.toNat = k := by omega
    constructor
    · rw [h1, hmin]
    · rw [h2, hmin]
  · intro hk
    have hmin : min k u.tokens_balance.toNat = u.tokens_balance.toNat := by
      omega
    constructor
    · rw [h1, hmin]; omega
    · rw [h2, hmin]
      simp only [Option.some.injEq]
      omega
  · intro db2 uid2 hb2
    cases h : db2.users uid2 with
    | none => simp [deduct_token, h]
    | some u2 =>
        have hnp : ¬ 0 < u2.tokens_balance := by
          simp [get_balance, get_user, h] at hb2
          omega
        simp [deduct_token, h, hnp]
  · intro db2 uid2 u2 h hpos
    simp [deduct_token, h, hpos]

/-- C2 witness: user 1 of `sampleDB` has balance 3; five attempts succeed
exactly three times and drain the balance to zero. -/
theorem C2_deduct_token_counts_witness :
    ((deduct_token_iter sampleDB 1 5).2 : Int) = 3 ∧
    (((deduct_token_iter sampleDB 1 5).1.users 1).map User.tokens_balance
      = some 0) := by
  have h := C2_deduct_token_counts sampleDB 1 ⟨"alice", "Alice A", 3, 0, 0⟩
    5 rfl (by decide)
  exact ⟨(h.2.1 (by decide)).1, (h.2.1 (by decide)).2⟩

/-- A concrete orchestrator state over `sampleDB` with no recorded
requests. -/
def sampleBotState : BotState :=
  { db := sampleDB, last_request_time := fun _ => none }

/-- C5: when a request passes the length, rate-limit and balance checks
and the generation backend then fails, the database is left untouched (no
debit, no usage increment), while the rate-limit stamp written at the
start of the attempt remains and records the attempt time; the backend was
invoked and the failure outcome is reported. -/
theorem C5_generation_failure_no_charge (mpl : Nat) (st : BotState)
    (user_id : Nat) (input : String) (now : Int) (msg : String)
    (hlen : input.length ≤ mpl)
    (hrate : check_rate_limit st.last_request_time user_id now = 0)
    (hbal : 0 < get_balance st.db user_id) :
    (generate_recipe_for_user mpl st user_id input now
        (.failure msg)).1.db = st.db ∧
    ((generate_recipe_for_user mpl st user_id input now
        (.failure msg)).1.last_request_time user_id = some now) ∧
    (generate_recipe_for_user mpl st user_id input now
        (.failure msg)).2.1 = .generationFailed ∧
    (generate_recipe_for_user mpl st user_id input now
        (.failure msg)).2.2 = true := by
  have h1 : ¬ input.length > mpl := by omega
  have h2 : ¬ get_balance st.db user_id ≤ 0 := by omega
  simp [generate_recipe_for_user, h1, hrate, h2, update_rate_limit]

/-- C5 witness: a failing backend call for user 1 over `sampleDB` at time
0 leaves the database as it was and stamps the rate limit at 0. -/
theorem C5_generation_failure_no_charge_witness :
    (generate_recipe_for_user 100 sampleBotState 1 "soup" 0
        (.failure "timeout")).1.db = sampleBotState.db ∧
    ((generate_recipe_for_user 100 sampleBotState 1 "soup" 0
        (.failure "timeout")).1.last_request_time 1 = some 0) ∧
    (generate_recipe_for_user 100 sampleBotState 1 "soup" 0
        (.failure "timeout")).2.1 = .generationFailed ∧
    (generate_recipe_for_user 100 sampleBotState 1 "soup" 0
        (.failure "timeout")).2.2 = true :=
  C5_generation_failure_no_charge 100 sampleBotState 1 "soup" 0 "timeout"
    (by decide) rfl (by decide)

/-- The state after the first contact of account 1: the account-creation
path grants the default starting balance. -/
def freshState : BotState :=
  { db := (get_or_create_user emptyDB 1 "alice" "Alice A").1,
    last_request_time := fun _ => none }

/-- First recipe request of the fresh account at time 0 (backend
succeeds). -/
def run1 : BotState × RecipeOutcome × Bool :=
  generate_recipe_for_user 500 freshState 1 "chicken" 0 (.ok "recipe one")

/-- Second recipe request at time 100. -/
def run2 : BotState × RecipeOutcome × Bool :=
  generate_recipe_for_user 500 run1.1 1 "chicken" 100 (.ok "recipe two")

/-- Third recipe request at time 200. -/
def run3 : BotState × RecipeOutcome × Bool :=
  generate_recipe_for_user 500 run2.1 1 "chicken" 200 (.ok "recipe three")

/-- Fourth recipe request at time 300, after the free grant is spent. -/
def run4 : BotState × RecipeOutcome × Bool :=
  generate_recipe_for_user 500 run3.1 1 "chicken" 300 (.ok "recipe four")

/-- C6: a request from an account with non-positive balance is rejected
with the insufficient-balance outcome, the state is unchanged and the
generation backend is never invoked; concretely, a new account starting
with the default grant of 3 has its first three requests fulfilled
(balances 2, 1, 0) and the fourth rejected this way with the backend not
invoked. -/
theorem C6_zero_balance_rejected_without_backend (mpl : Nat)
    (st : BotState) (user_id : Nat) (input : String) (now : Int)
    (gen : GenResult)
    (hlen : input.length ≤ mpl)
    (hrate : check_rate_limit st.last_request_time user_id now = 0)
    (hbal : get_balance st.db user_id ≤ 0) :
    (generate_recipe_for_user mpl st user_id input now gen
      = (st, .insufficientBalance, false)) ∧
    (run1.2.1 = .fulfilled 2 ∧ run2.2.1 = .fulfilled 1 ∧
     run3.2.1 = .fulfilled 0 ∧ get_balance run3.1.db 1 = 0 ∧
     run4.2.1 = .insufficientBalance ∧ run4.2.2 = false) := by
  constructor
  · have h1 : ¬ input.length > mpl := by omega
    simp [generate_recipe_for_user, h1, hrate, hbal]
  · decide

/-- C6 witness: the drained account of the concrete scenario has its next
request rejected without invoking the backend. -/
theorem C6_zero_balance_rejected_without_backend_witness :
    generate_recipe_for_user 500 run3.1 1 "chicken" 300 (.ok "recipe four")
      = (run3.1, .insufficientBalance, false) :=
  (C6_zero_balance_rejected_without_backend 500 run3.1 1 "chicken" 300
    (.ok "recipe four") (by decide) (by decide) (by decide)).1

end AiChef
